import Mathlib

/-!
Shallow embedding of the dual-thumbstick input controller of the
pi-world-radio backend (src/app/thumbstick-controller.js) and of the
WebSocket broadcast helper of the server (broadcastToClients).

Analog values and JS numbers are modelled as rationals (ℚ); timestamps
(Date.now(), milliseconds) as integers (ℤ).  The JS `||` defaulting used
by the constructor is modelled explicitly (absent field or 0 picks the
default).  The asynchronous poll loop is split at its single await point
into a synchronous prefix (the isRunning guard plus the issuing of the
four channel reads) and a resumption (everything after `Promise.all`),
so that interleavings with `stop()` can be stated.
-/

namespace PiWorldRadio

/-- `Math.abs` on rationals, as used by the controller. -/
def jabs (x : ℚ) : ℚ := if x < 0 then -x else x

/-- The four stick directions emitted by the classifier (`null` is `Option.none`). -/
inductive Direction
  | up
  | down
  | left
  | right
  deriving DecidableEq, Repr

/-- Zoom event payload direction: "in" or "out". -/
inductive ZoomDir
  | zoomIn
  | zoomOut
  deriving DecidableEq, Repr

/-- The events the controller emits (`this.emit(...)` calls). -/
inductive Event
  | leftClick (zoomMode : Bool)
  | rightClick
  | zoom (d : ZoomDir)
  | pan (d : Direction)
  | navigate (d : Direction)
  deriving DecidableEq, Repr

/-- The `options` argument of the constructor: every field may be absent. -/
structure Options where
  leftXChannel : Option ℚ := none
  leftYChannel : Option ℚ := none
  rightXChannel : Option ℚ := none
  rightYChannel : Option ℚ := none
  leftButtonPin : Option ℚ := none
  rightButtonPin : Option ℚ := none
  deadzone : Option ℚ := none
  pollInterval : Option ℚ := none
  threshold : Option ℚ := none
  deriving DecidableEq, Repr

/-- JS `options.x || d`: an absent field or the (falsy) number 0 selects the
default `d`; any other number is kept. -/
def orDefault (o : Option ℚ) (d : ℚ) : ℚ :=
  match o with
  | none => d
  | some v => if v = 0 then d else v

/-- The `this.options` record built by the constructor. -/
structure ControllerOptions where
  leftXChannel : ℚ
  leftYChannel : ℚ
  rightXChannel : ℚ
  rightYChannel : ℚ
  leftButtonPin : ℚ
  rightButtonPin : ℚ
  deadzone : ℚ
  pollInterval : ℚ
  threshold : ℚ
  deriving DecidableEq, Repr

/-- The defaulting performed by the constructor (`options.x || default`). -/
def mkControllerOptions (options : Options) : ControllerOptions :=
  { leftXChannel := orDefault options.leftXChannel 0
    leftYChannel := orDefault options.leftYChannel 1
    rightXChannel := orDefault options.rightXChannel 2
    rightYChannel := orDefault options.rightYChannel 3
    leftButtonPin := orDefault options.leftButtonPin 17
    rightButtonPin := orDefault options.rightButtonPin 27
    deadzone := orDefault options.deadzone (15/100)
    pollInterval := orDefault options.pollInterval 50
    threshold := orDefault options.threshold (3/10) }

/-- `applyDeadzone`: center a raw [0,1] reading and remove the dead band,
rescaling the remaining travel. -/
def applyDeadzone (opts : ControllerOptions) (value : ℚ) : ℚ :=
  let centered := (value - 1/2) * 2
  if jabs centered < opts.deadzone then 0
  else
    let sign := if centered > 0 then (1 : ℚ) else -1
    let scaled := (jabs centered - opts.deadzone) / (1 - opts.deadzone)
    sign * scaled

/-- `getDirection`: classify two normalized axis values against the threshold. -/
def getDirection (opts : ControllerOptions) (x y : ℚ) : Option Direction :=
  let threshold := opts.threshold
  if jabs x < threshold ∧ jabs y < threshold then none
  else if jabs x > jabs y then (if x > 0 then some .right else some .left)
  else if y > 0 then some .down else some .up

/-- `this.state.left`: the left stick carries the zoom-mode flag. -/
structure LeftStick where
  x : ℚ
  y : ℚ
  button : Bool
  zoomMode : Bool
  deriving DecidableEq, Repr

/-- `this.state.right`. -/
structure RightStick where
  x : ℚ
  y : ℚ
  button : Bool
  deriving DecidableEq, Repr

/-- `this.state.lastDirection`. -/
structure LastDirection where
  left : Option Direction
  right : Option Direction
  deriving DecidableEq, Repr

/-- `this.state`. -/
structure CtrlState where
  left : LeftStick
  right : RightStick
  lastDirection : LastDirection
  deriving DecidableEq, Repr

/-- The state installed by the constructor. -/
def initCtrlState : CtrlState :=
  { left := { x := 0, y := 0, button := false, zoomMode := false }
    right := { x := 0, y := 0, button := false }
    lastDirection := { left := none, right := none } }

/-- An open ADC channel, reduced to the outcome its `read` callback delivers. -/
structure AdcChannel where
  readResult : Except String ℚ
  deriving Repr

/-- `this.channels` when `init()` succeeded on hardware. -/
structure ChannelSet where
  leftX : Option AdcChannel
  leftY : Option AdcChannel
  rightX : Option AdcChannel
  rightY : Option AdcChannel
  deriving Repr

/-- `readChannel`: a missing channel resolves to the raw center value 0.5
(mock mode); an open channel resolves or rejects as its read does. -/
def readChannel (channel : Option AdcChannel) : Except String ℚ :=
  match channel with
  | none => Except.ok (1/2)
  | some ch => ch.readResult

/-- The whole controller object (`this`): options, hardware handles, state,
debounce timestamps, run flag, pending-timer flag, and the trace of events
emitted so far (`this.emit` appends to it). -/
structure ThumbstickController where
  options : ControllerOptions
  channels : Option ChannelSet
  state : CtrlState
  isRunning : Bool
  pollTimerSet : Bool
  lastLeftClick : ℤ
  lastRightClick : ℤ
  events : List Event
  deriving Repr

/-- `this.clickDebounce = 200` (ms). -/
def clickDebounce : ℤ := 200

/-- The constructor: defaults merged with `||`, no hardware yet, initial
state, debounce timestamps 0, not running.  It has no failure path. -/
def ThumbstickController.construct (options : Options) : ThumbstickController :=
  { options := mkControllerOptions options
    channels := none
    state := initCtrlState
    isRunning := false
    pollTimerSet := false
    lastLeftClick := 0
    lastRightClick := 0
    events := [] }

/-- `handleLeftButton(pressed)` at time `now` (`Date.now()`). -/
def handleLeftButton (c : ThumbstickController) (pressed : Bool) (now : ℤ) :
    ThumbstickController :=
  let c1 :=
    if pressed = true ∧ now - c.lastLeftClick > clickDebounce then
      let zm := !c.state.left.zoomMode
      { c with
        lastLeftClick := now
        state := { c.state with left := { c.state.left with zoomMode := zm } }
        events := c.events ++ [Event.leftClick zm] }
    else c
  { c1 with state := { c1.state with left := { c1.state.left with button := pressed } } }

/-- `handleRightButton(pressed)` at time `now`. -/
def handleRightButton (c : ThumbstickController) (pressed : Bool) (now : ℤ) :
    ThumbstickController :=
  let c1 :=
    if pressed = true ∧ now - c.lastRightClick > clickDebounce then
      { c with
        lastRightClick := now
        events := c.events ++ [Event.rightClick] }
    else c
  { c1 with state := { c1.state with right := { c1.state.right with button := pressed } } }

/-- The four raw readings one tick obtains from `Promise.all`. -/
structure RawReads where
  leftX : ℚ
  leftY : ℚ
  rightX : ℚ
  rightY : ℚ
  deriving DecidableEq, Repr

/-- The left normalized direction a tick computes from its raw readings. -/
def normLeftDir (opts : ControllerOptions) (raw : RawReads) : Option Direction :=
  getDirection opts (applyDeadzone opts raw.leftX) (applyDeadzone opts raw.leftY)

/-- The right normalized direction a tick computes from its raw readings. -/
def normRightDir (opts : ControllerOptions) (raw : RawReads) : Option Direction :=
  getDirection opts (applyDeadzone opts raw.rightX) (applyDeadzone opts raw.rightY)

/-- The events the left-stick branch of `poll` emits once a change to
`leftDir` is detected: in zoom mode only up/down produce zoom events,
otherwise any non-null direction produces a pan; `null` emits nothing. -/
def leftDirEvents (zoomMode : Bool) (leftDir : Option Direction) : List Event :=
  match leftDir with
  | some d =>
    if zoomMode then
      match d with
      | .up => [Event.zoom .zoomIn]
      | .down => [Event.zoom .zoomOut]
      | _ => []
    else [Event.pan d]
  | none => []

/-- The events the right-stick branch emits once a change is detected. -/
def rightDirEvents (rightDir : Option Direction) : List Event :=
  match rightDir with
  | some d => [Event.navigate d]
  | none => []

/-- The left-stick block of `poll`: diff the classified direction against
`lastDirection.left`; on change record it and route the event through
zoom mode. -/
def leftBlock (s : CtrlState) (leftDir : Option Direction) : CtrlState × List Event :=
  if leftDir ≠ s.lastDirection.left then
    ({ s with lastDirection := { s.lastDirection with left := leftDir } },
     leftDirEvents s.left.zoomMode leftDir)
  else (s, [])

/-- The right-stick block of `poll`: on change record and emit navigate. -/
def rightBlock (s : CtrlState) (rightDir : Option Direction) : CtrlState × List Event :=
  if rightDir ≠ s.lastDirection.right then
    ({ s with lastDirection := { s.lastDirection with right := rightDir } },
     rightDirEvents rightDir)
  else (s, [])

/-- The body of a successful `poll` tick: normalize the four axes, store
them, then run the left and right direction blocks in source order. -/
def pollBody (opts : ControllerOptions) (s : CtrlState) (raw : RawReads) :
    CtrlState × List Event :=
  let leftX := applyDeadzone opts raw.leftX
  let leftY := applyDeadzone opts raw.leftY
  let rightX := applyDeadzone opts raw.rightX
  let rightY := applyDeadzone opts raw.rightY
  let s1 := { s with
    left := { s.left with x := leftX, y := leftY }
    right := { s.right with x := rightX, y := rightY } }
  let p2 := leftBlock s1 (getDirection opts leftX leftY)
  let p3 := rightBlock p2.1 (getDirection opts rightX rightY)
  (p3.1, p2.2 ++ p3.2)

/-- The guard at the top of `poll`: `if (!this.isRunning) return`. -/
def pollGuard (c : ThumbstickController) : Bool := c.isRunning

/-- The four channel reads a tick issues (`Promise.all` of `readChannel` on
`this.channels?.x`): all four must resolve, else the tick's try block
rejects. -/
def controllerReads (c : ThumbstickController) : Except String RawReads := do
  let lx ← readChannel (c.channels.bind ChannelSet.leftX)
  let ly ← readChannel (c.channels.bind ChannelSet.leftY)
  let rx ← readChannel (c.channels.bind ChannelSet.rightX)
  let ry ← readChannel (c.channels.bind ChannelSet.rightY)
  pure { leftX := lx, leftY := ly, rightX := rx, rightY := ry }

/-- Resumption of `poll` after its awaited reads settle: on success run the
tick body and emit its events; on failure the catch block swallows the
error; either way the tick unconditionally schedules the next poll
(`this.pollTimer = setTimeout(...)`). -/
def pollResume (c : ThumbstickController) (reads : Except String RawReads) :
    ThumbstickController :=
  let c1 :=
    match reads with
    | Except.ok raw =>
      let p := pollBody c.options c.state raw
      { c with state := p.1, events := c.events ++ p.2 }
    | Except.error _ => c
  { c1 with pollTimerSet := true }

/-- One whole `poll` invocation in which no other code interleaves with the
awaited reads: guard, read, resume. -/
def pollTick (c : ThumbstickController) : ThumbstickController :=
  if pollGuard c = false then c
  else pollResume c (controllerReads c)

/-- `start()`: no-op when running, else set the flag and perform the first
poll (which then self-schedules). -/
def start (c : ThumbstickController) : ThumbstickController :=
  if c.isRunning then c
  else pollTick { c with isRunning := true }

/-- `stop()`: clear the run flag and cancel the pending timer. -/
def stop (c : ThumbstickController) : ThumbstickController :=
  { c with isRunning := false, pollTimerSet := false }

/-- `n` timer firings of `poll`, each tick running without interleaving. -/
def runTicks : Nat → ThumbstickController → ThumbstickController
  | 0, c => c
  | n + 1, c => runTicks n (pollTick c)

/-- A sequence of successful tick bodies over the given raw readings, with
the emitted events concatenated in order. -/
def runPollList (opts : ControllerOptions) (s : CtrlState) :
    List RawReads → CtrlState × List Event
  | [] => (s, [])
  | raw :: rest =>
    let p := pollBody opts s raw
    let q := runPollList opts p.1 rest
    (q.1, p.2 ++ q.2)

/-! ## The WebSocket broadcast helper of the server (broadcastToClients) -/

/-- A message handed to `broadcastToClients`: a `type` discriminator plus
string payload fields, as built by the thumbstick event handlers. -/
structure WsMessage where
  type : String
  payload : List (String × String)
  deriving DecidableEq, Repr

/-- `JSON.stringify` of a broadcast message. -/
def serializeMessage (m : WsMessage) : String :=
  "\x7b\"type\":\"" ++ m.type ++ "\"" ++
    String.join (m.payload.map (fun f => ",\"" ++ f.1 ++ "\":\"" ++ f.2 ++ "\"")) ++
    "\x7d"

/-- One WebSocket client as `broadcastToClients` observes it: its
`readyState` (1 = OPEN) and whether its `send` throws. -/
structure WsClient where
  id : Nat
  readyState : Nat
  sendFails : Bool
  deriving DecidableEq, Repr

/-- What one broadcast did: which clients had `send` called on them, which
(id, payload) pairs were delivered, the registry as the function leaves
it, and how many times the message was serialized. -/
structure BroadcastOutcome where
  attempted : List Nat
  sent : List (Nat × String)
  registryAfter : List WsClient
  serializeCalls : Nat
  deriving DecidableEq, Repr

/-- The per-client loop of `broadcastToClients` (`wsClients.forEach`): a
closed client is skipped; an open client gets `send(data)` called; a
throwing send is caught and the loop moves on.  Nothing is removed. -/
def broadcastSends (data : String) : List WsClient → List Nat × List (Nat × String)
  | [] => ([], [])
  | client :: rest =>
    let r := broadcastSends data rest
    if client.readyState = 1 then
      if client.sendFails then (client.id :: r.1, r.2)
      else (client.id :: r.1, (client.id, data) :: r.2)
    else r

/-- `broadcastToClients(message)`: serialize once, then attempt delivery to
every client in the registry; the registry itself is left unchanged. -/
def broadcastToClients (wsClients : List WsClient) (message : WsMessage) :
    BroadcastOutcome :=
  let data := serializeMessage message
  let r := broadcastSends data wsClients
  { attempted := r.1
    sent := r.2
    registryAfter := wsClients
    serializeCalls := 1 }

/-! ## Concrete fixtures used by counterexamples and witnesses -/

/-- Hardware channels whose next reads put the left stick hard right
(raw x = 1.0) and everything else at center. -/
def panRightChannels : ChannelSet :=
  { leftX := some { readResult := Except.ok 1 }
    leftY := some { readResult := Except.ok (1/2) }
    rightX := some { readResult := Except.ok (1/2) }
    rightY := some { readResult := Except.ok (1/2) }}

/-- A default-configured controller that has been started on hardware and
whose current tick has passed the `isRunning` guard and is awaiting its
channel reads. -/
def inFlightController : ThumbstickController :=
  { ThumbstickController.construct {} with
      channels := some panRightChannels
      isRunning := true }

/-- The raw readings every tick obtains in mock mode. -/
def mockRaw : RawReads :=
  { leftX := 1/2, leftY := 1/2, rightX := 1/2, rightY := 1/2 }

/-- The raw readings `panRightChannels` delivers: left stick hard right. -/
def panRaw : RawReads :=
  { leftX := 1, leftY := 1/2, rightX := 1/2, rightY := 1/2 }

/-- Subscriber whose `send` throws. -/
def clientA : WsClient := { id := 1, readyState := 1, sendFails := true }

/-- Subscriber whose `send` succeeds. -/
def clientB : WsClient := { id := 2, readyState := 1, sendFails := false }

/-- A sample controller event as broadcast by the server. -/
def sampleMessage : WsMessage :=
  { type := "pan", payload := [("direction", "right")] }

/-! ## Basic lemmas about the embedded primitives -/

theorem jabs_eq_abs (x : ℚ) : jabs x = |x| := by
  unfold jabs
  rcases lt_or_ge x 0 with h | h
  · simp [h, abs_of_neg h]
  · simp [not_lt.mpr h, abs_of_nonneg h]

theorem getDirection_def (opts : ControllerOptions) (x y : ℚ) :
    getDirection opts x y =
      if |x| < opts.threshold ∧ |y| < opts.threshold then none
      else if |x| > |y| then (if x > 0 then some .right else some .left)
      else if y > 0 then some .down else some .up := by
  simp [getDirection, jabs_eq_abs]

theorem applyDeadzone_def (opts : ControllerOptions) (r : ℚ) :
    applyDeadzone opts r =
      if |(r - 1/2) * 2| < opts.deadzone then 0
      else (if (r - 1/2) * 2 > 0 then 1 else -1) *
        ((|(r - 1/2) * 2| - opts.deadzone) / (1 - opts.deadzone)) := by
  simp [applyDeadzone, jabs_eq_abs]

/-- C7: the claim, stated exactly: `none` iff both axes are inside the
threshold; otherwise the strictly larger axis wins with the stated signs;
an exact tie goes to the y-axis; in particular `classify(x,x,t)` with
`x ≥ t` is vertical. -/
theorem getDirection_classifies (opts : ControllerOptions) (x y : ℚ) :
    (getDirection opts x y = none ↔ |x| < opts.threshold ∧ |y| < opts.threshold) ∧
    (¬(|x| < opts.threshold ∧ |y| < opts.threshold) →
      (|x| > |y| → 0 < x → getDirection opts x y = some .right) ∧
      (|x| > |y| → x < 0 → getDirection opts x y = some .left) ∧
      (|y| > |x| → 0 < y → getDirection opts x y = some .down) ∧
      (|y| > |x| → y < 0 → getDirection opts x y = some .up) ∧
      (|x| = |y| →
        getDirection opts x y = some .up ∨ getDirection opts x y = some .down)) ∧
    (opts.threshold ≤ x →
      getDirection opts x x = some .up ∨ getDirection opts x x = some .down) := by
  refine ⟨?_, fun hin => ⟨?_, ?_, ?_, ?_, ?_⟩, ?_⟩
  · rw [getDirection_def]
    constructor
    · intro h
      by_contra hc
      simp only [hc, if_false] at h
      split_ifs at h
    · intro h
      simp [h]
  · intro hxy hx
    rw [getDirection_def]
    simp [hin, hxy, hx]
  · intro hxy hx
    rw [getDirection_def]
    simp [hin, hxy, not_lt.mpr (le_of_lt hx)]
  · intro hyx hy
    rw [getDirection_def]
    simp [hin, not_lt.mpr (le_of_lt hyx), hy]
  · intro hyx hy
    rw [getDirection_def]
    simp [hin, not_lt.mpr (le_of_lt hyx), not_lt.mpr (le_of_lt hy)]
  · intro hxy
    rw [getDirection_def, if_neg hin, hxy]
    simp only [gt_iff_lt, lt_self_iff_false, if_false]
    split_ifs <;> simp
  · intro ht
    have hx0 : ¬(|x| < opts.threshold ∧ |x| < opts.threshold) := by
      intro hc
      exact absurd (lt_of_le_of_lt (le_trans ht (le_abs_self x)) hc.1) (lt_irrefl _)
    rw [getDirection_def, if_neg hx0]
    simp only [gt_iff_lt, lt_self_iff_false, if_false]
    split_ifs <;> simp

/-- C7 witness: at `x = y = 1/2 ≥ threshold = 3/10` the classifier answers
vertically. -/
theorem getDirection_classifies_witness :
    (mkControllerOptions {}).threshold ≤ (1/2 : ℚ) ∧
    (getDirection (mkControllerOptions {}) (1/2) (1/2) = some .up ∨
      getDirection (mkControllerOptions {}) (1/2) (1/2) = some .down) := by
  have ht : (mkControllerOptions {}).threshold ≤ (1/2 : ℚ) := by
    norm_num [mkControllerOptions, orDefault]
  exact ⟨ht, (getDirection_classifies (mkControllerOptions {}) (1/2) (1/2)).2.2 ht⟩

theorem applyDeadzone_mono (opts : ControllerOptions)
    (hd0 : 0 ≤ opts.deadzone) (hd1 : opts.deadzone < 1) :
    ∀ r1 r2 : ℚ, r1 ≤ r2 → applyDeadzone opts r1 ≤ applyDeadzone opts r2 := by
  intro r1 r2 hr
  have hpos : 0 < 1 - opts.deadzone := by linarith
  rw [applyDeadzone_def, applyDeadzone_def]
  set d := opts.deadzone with hd
  set c1 := (r1 - 1/2) * 2 with hc1
  set c2 := (r2 - 1/2) * 2 with hc2
  have hc : c1 ≤ c2 := by rw [hc1, hc2]; linarith
  by_cases h1 : |c1| < d <;> by_cases h2 : |c2| < d
  · simp [h1, h2]
  · simp only [h1, if_true, h2, if_false]
    have habs2 : d ≤ |c2| := not_lt.mp h2
    have hq : 0 ≤ (|c2| - d) / (1 - d) := div_nonneg (by linarith) (le_of_lt hpos)
    by_cases hs : c2 > 0
    · simp only [hs, if_true]
      linarith
    · exfalso
      have h2n : c2 ≤ 0 := not_lt.mp hs
      have he : |c2| = -c2 := abs_of_nonpos h2n
      have h1l : -d < c1 := (abs_lt.mp h1).1
      rw [he] at habs2
      linarith
  · simp only [h1, if_false, h2, if_true]
    have habs1 : d ≤ |c1| := not_lt.mp h1
    have hq : 0 ≤ (|c1| - d) / (1 - d) := div_nonneg (by linarith) (le_of_lt hpos)
    have hs : ¬(c1 > 0) := by
      intro hcp
      have he : |c1| = c1 := abs_of_pos hcp
      have h2u : c2 < d := (abs_lt.mp h2).2
      rw [he] at habs1
      linarith
    simp only [hs, if_false]
    linarith
  · simp only [h1, if_false, h2, if_false]
    have habs1 : d ≤ |c1| := not_lt.mp h1
    have habs2 : d ≤ |c2| := not_lt.mp h2
    by_cases hs1 : c1 > 0 <;> by_cases hs2 : c2 > 0
    · simp only [hs1, if_true, hs2, if_true, one_mul]
      rw [abs_of_pos hs1, abs_of_pos hs2]
      exact (div_le_div_right hpos).mpr (by linarith)
    · exact absurd (lt_of_lt_of_le hs1 hc) hs2
    · simp only [hs1, if_false, hs2, if_true, one_mul, neg_one_mul]
      have hq1 : 0 ≤ (|c1| - d) / (1 - d) := div_nonneg (by linarith) (le_of_lt hpos)
      have hq2 : 0 ≤ (|c2| - d) / (1 - d) := div_nonneg (by linarith) (le_of_lt hpos)
      linarith
    · simp only [hs1, if_false, hs2, if_false, neg_one_mul]
      rw [abs_of_nonpos (not_lt.mp hs1), abs_of_nonpos (not_lt.mp hs2)]
      have : (-c2 - d) / (1 - d) ≤ (-c1 - d) / (1 - d) :=
        (div_le_div_right hpos).mpr (by linarith)
      linarith

/-- C8: the claim about `applyDeadzone`, stated exactly: output 0 exactly
when the centered value is inside (or at) the deadzone, the spec's rescale
formula outside it, output bounded by 1 in magnitude on [0,1], zero at
center, monotone non-decreasing in the raw reading, and saturation at the
raw extremes. -/
theorem applyDeadzone_spec (opts : ControllerOptions) (r : ℚ)
    (hd0 : 0 ≤ opts.deadzone) (hd1 : opts.deadzone < 1) :
    (applyDeadzone opts r = 0 ↔ |(r - 1/2) * 2| ≤ opts.deadzone) ∧
    (opts.deadzone ≤ |(r - 1/2) * 2| →
      applyDeadzone opts r =
        (if 0 < (r - 1/2) * 2 then 1 else if (r - 1/2) * 2 < 0 then -1 else 0) *
          ((|(r - 1/2) * 2| - opts.deadzone) / (1 - opts.deadzone))) ∧
    (0 ≤ r → r ≤ 1 → |applyDeadzone opts r| ≤ 1) ∧
    applyDeadzone opts (1/2) = 0 ∧
    (∀ r1 r2 : ℚ, r1 ≤ r2 → applyDeadzone opts r1 ≤ applyDeadzone opts r2) ∧
    applyDeadzone opts 0 = -1 ∧
    applyDeadzone opts 1 = 1 := by
  have hpos : 0 < 1 - opts.deadzone := by linarith
  have hzero : ∀ v : ℚ,
      applyDeadzone opts v = 0 ↔ |(v - 1/2) * 2| ≤ opts.deadzone := by
    intro v
    rw [applyDeadzone_def]
    set d := opts.deadzone with hd
    set c := (v - 1/2) * 2 with hc
    by_cases h : |c| < d
    · simp [h, le_of_lt h]
    · simp only [h, if_false]
      have habs : d ≤ |c| := not_lt.mp h
      constructor
      · intro h0
        have hq : (|c| - d) / (1 - d) = 0 := by
          by_cases hs : c > 0
          · simpa [hs] using h0
          · have := h0
            simp only [hs, if_false, neg_one_mul, neg_eq_zero] at this
            exact this
        have : |c| - d = 0 := by
          by_contra hne
          exact hne (by
            field_simp at hq
            linarith [hq])
        linarith
      · intro hle
        have : |c| = d := le_antisymm hle habs
        rw [this]
        simp
  refine ⟨hzero r, ?_, ?_, ?_, applyDeadzone_mono opts hd0 hd1, ?_, ?_⟩
  · intro hge
    rw [applyDeadzone_def]
    set d := opts.deadzone with hd
    set c := (r - 1/2) * 2 with hc
    have h : ¬(|c| < d) := not_lt.mpr hge
    simp only [h, if_false]
    by_cases hs : c > 0
    · simp [hs]
    · by_cases hneg : c < 0
      · simp [hs, hneg]
      · have hc0 : c = 0 := le_antisymm (not_lt.mp hs) (not_lt.mp hneg)
        have hd0' : d = 0 := by
          rw [hc0] at hge
          simp at hge
          linarith
        simp [hs, hneg, hc0, hd0']
  · intro hr0 hr1
    rw [applyDeadzone_def]
    set d := opts.deadzone with hd
    set c := (r - 1/2) * 2 with hc
    have hcb : -1 ≤ c ∧ c ≤ 1 := by rw [hc]; constructor <;> linarith
    by_cases h : |c| < d
    · simp [h]
    · simp only [h, if_false]
      have habs : d ≤ |c| := not_lt.mp h
      have habs1 : |c| ≤ 1 := abs_le.mpr hcb
      have hq0 : 0 ≤ (|c| - d) / (1 - d) := div_nonneg (by linarith) (le_of_lt hpos)
      have hq1 : (|c| - d) / (1 - d) ≤ 1 := by
        rw [div_le_one hpos]
        linarith
      by_cases hs : c > 0
      · simp only [hs, if_true, one_mul]
        rw [abs_of_nonneg hq0]
        exact hq1
      · simp only [hs, if_false, neg_one_mul, abs_neg]
        rw [abs_of_nonneg hq0]
        exact hq1
  · rw [hzero]
    simpa using hd0
  · rw [applyDeadzone_def]
    have hc : ((0 : ℚ) - 1/2) * 2 = -1 := by norm_num
    rw [hc]
    have h : ¬(|(-1 : ℚ)| < opts.deadzone) := by
      rw [abs_neg, abs_one]
      linarith
    simp only [h, if_false]
    have hs : ¬((-1 : ℚ) > 0) := by norm_num
    simp only [hs, if_false, neg_one_mul, abs_neg, abs_one]
    rw [div_self (ne_of_gt hpos)]
  · rw [applyDeadzone_def]
    have hc : ((1 : ℚ) - 1/2) * 2 = 1 := by norm_num
    rw [hc]
    have h : ¬(|(1 : ℚ)| < opts.deadzone) := by
      rw [abs_one]
      linarith
    simp only [h, if_false]
    have hs : ((1 : ℚ) > 0) := by norm_num
    simp only [hs, if_true, one_mul, abs_one]
    rw [div_self (ne_of_gt hpos)]

/-- C8 witness: the default deadzone 0.15 is admissible and, at raw
readings 1/2, 0 and 1, the normalizer answers 0, -1 and 1. -/
theorem applyDeadzone_spec_witness :
    0 ≤ (mkControllerOptions {}).deadzone ∧ (mkControllerOptions {}).deadzone < 1 ∧
    applyDeadzone (mkControllerOptions {}) (1/2) = 0 ∧
    applyDeadzone (mkControllerOptions {}) 0 = -1 ∧
    applyDeadzone (mkControllerOptions {}) 1 = 1 := by
  have hd0 : 0 ≤ (mkControllerOptions {}).deadzone := by
    norm_num [mkControllerOptions, orDefault]
  have hd1 : (mkControllerOptions {}).deadzone < 1 := by
    norm_num [mkControllerOptions, orDefault]
  have h := applyDeadzone_spec (mkControllerOptions {}) 0 hd0 hd1
  exact ⟨hd0, hd1, h.2.2.2.1, h.2.2.2.2.2.1, h.2.2.2.2.2.2⟩

/-- C3 counterexample: from a fresh controller (last accepted click at 0),
a press edge arriving exactly at the window boundary (`now = 200`,
`now - lastAccepted = debounceWindow`) is NOT accepted: no event fires,
the timestamp stays 0 and zoom mode does not toggle — the claim says it
must be accepted. -/
theorem click_boundary_rejected :
    (200 : ℤ) - (ThumbstickController.construct {}).lastLeftClick ≥ clickDebounce ∧
    (handleLeftButton (ThumbstickController.construct {}) true 200).events = [] ∧
    (handleLeftButton (ThumbstickController.construct {}) true 200).lastLeftClick = 0 ∧
    (handleLeftButton (ThumbstickController.construct {}) true 200).state.left.zoomMode
      = false := by
  refine ⟨by norm_num [ThumbstickController.construct, clickDebounce], ?_, ?_, ?_⟩ <;>
    simp [handleLeftButton, ThumbstickController.construct, clickDebounce,
      initCtrlState, mkControllerOptions, orDefault]

/-- C3 amended: a press edge is accepted (timestamp updated, click event
fired, zoom mode toggled) iff `now - lastAccepted` STRICTLY exceeds the
200 ms debounce window; at or below the boundary nothing but the held-flag
changes.  The button-held flag tracks the press either way. -/
theorem handleLeftButton_debounce (c : ThumbstickController) (now : ℤ) :
    (now - c.lastLeftClick > clickDebounce →
      (handleLeftButton c true now).lastLeftClick = now ∧
      (handleLeftButton c true now).events =
        c.events ++ [Event.leftClick (!c.state.left.zoomMode)] ∧
      (handleLeftButton c true now).state.left.zoomMode = !c.state.left.zoomMode) ∧
    (¬(now - c.lastLeftClick > clickDebounce) →
      (handleLeftButton c true now).lastLeftClick = c.lastLeftClick ∧
      (handleLeftButton c true now).events = c.events ∧
      (handleLeftButton c true now).state.left.zoomMode = c.state.left.zoomMode) ∧
    (handleLeftButton c true now).state.left.button = true := by
  refine ⟨fun h => ?_, fun h => ?_, ?_⟩
  · simp [handleLeftButton, h]
  · simp [handleLeftButton, h]
  · by_cases h : now - c.lastLeftClick > clickDebounce <;>
      simp [handleLeftButton, h]

/-- C3 witness: one millisecond past the boundary (`now = 201` on a fresh
controller) the click is accepted and toggles zoom mode on. -/
theorem handleLeftButton_debounce_witness :
    (201 : ℤ) - (ThumbstickController.construct {}).lastLeftClick > clickDebounce ∧
    (handleLeftButton (ThumbstickController.construct {}) true 201).lastLeftClick = 201 ∧
    (handleLeftButton (ThumbstickController.construct {}) true 201).events =
      (ThumbstickController.construct {}).events ++ [Event.leftClick true] := by
  have hgt : (201 : ℤ) - (ThumbstickController.construct {}).lastLeftClick
      > clickDebounce := by
    norm_num [ThumbstickController.construct, clickDebounce]
  have h := (handleLeftButton_debounce (ThumbstickController.construct {}) 201).1 hgt
  refine ⟨hgt, h.1, ?_⟩
  have hz : (ThumbstickController.construct {}).state.left.zoomMode = false := rfl
  have := h.2.1
  rw [hz] at this
  simpa using this

theorem pollResume_isRunning (c : ThumbstickController)
    (reads : Except String RawReads) :
    (pollResume c reads).isRunning = c.isRunning := by
  unfold pollResume
  cases reads <;> rfl

theorem pollResume_options (c : ThumbstickController)
    (reads : Except String RawReads) :
    (pollResume c reads).options = c.options := by
  unfold pollResume
  cases reads <;> rfl

theorem pollTick_isRunning (c : ThumbstickController) :
    (pollTick c).isRunning = c.isRunning := by
  unfold pollTick
  split
  · rfl
  · rw [pollResume_isRunning]

/-- C4 counterexample: `deadzone: 2` is outside [0,1], yet the constructor
accepts it verbatim (no `ConfigValidationError` exists anywhere in the
code) and the resulting controller starts. -/
theorem construct_accepts_invalid :
    (ThumbstickController.construct { deadzone := some 2 }).options.deadzone = 2 ∧
    ¬((ThumbstickController.construct { deadzone := some 2 }).options.deadzone ≤ 1) ∧
    (start (ThumbstickController.construct { deadzone := some 2 })).isRunning = true := by
  have hdz : (ThumbstickController.construct { deadzone := some 2 }).options.deadzone
      = 2 := by
    norm_num [ThumbstickController.construct, mkControllerOptions, orDefault]
  refine ⟨hdz, by rw [hdz]; norm_num, ?_⟩
  rw [start]
  have hr : (ThumbstickController.construct { deadzone := some 2 }).isRunning
      = false := rfl
  rw [hr]
  simp only [Bool.false_eq_true, if_false]
  rw [pollTick_isRunning]

/-- C4 amended: construction never fails and never validates.  Any
requested nonzero deadzone — in range or not — is stored verbatim, and
the freshly constructed controller can always be started. -/
theorem construct_no_validation (opts : Options) (dz : ℚ)
    (h : opts.deadzone = some dz) (h0 : dz ≠ 0) :
    (ThumbstickController.construct opts).options.deadzone = dz ∧
    (ThumbstickController.construct opts).isRunning = false ∧
    (start (ThumbstickController.construct opts)).isRunning = true := by
  have hdz : (ThumbstickController.construct opts).options.deadzone = dz := by
    simp [ThumbstickController.construct, mkControllerOptions, orDefault, h, h0]
  have hr : (ThumbstickController.construct opts).isRunning = false := rfl
  refine ⟨hdz, hr, ?_⟩
  rw [start, hr]
  simp only [Bool.false_eq_true, if_false]
  rw [pollTick_isRunning]

/-- C4 witness: the out-of-range deadzone 7/2 is accepted and the
controller starts. -/
theorem construct_no_validation_witness :
    (Options.deadzone { deadzone := some (7/2) } = some (7/2) ∧ (7/2 : ℚ) ≠ 0) ∧
    (ThumbstickController.construct { deadzone := some (7/2) }).options.deadzone = 7/2 ∧
    (start (ThumbstickController.construct { deadzone := some (7/2) })).isRunning
      = true := by
  have h := construct_no_validation { deadzone := some (7/2) } (7/2) rfl (by norm_num)
  exact ⟨⟨rfl, by norm_num⟩, h.1, h.2.2⟩

/-- C10 counterexample: requesting the legal value 0 for `leftXChannel`
does NOT make the configuration differ from the request — that field's
default is itself 0, so the stored configuration is exactly the requested
one (and equals the all-default configuration). -/
theorem zero_leftXChannel_preserved :
    (mkControllerOptions { leftXChannel := some 0 }).leftXChannel = 0 ∧
    mkControllerOptions { leftXChannel := some 0 } = mkControllerOptions {} := by
  constructor
  · simp [mkControllerOptions, orDefault]
  · simp [mkControllerOptions, orDefault]

/-- C10 amended: the `||` merge replaces a requested 0 by the field's
default — deadzone 0.15, threshold 0.3, pollInterval 50, leftYChannel 1,
rightXChannel 2, rightYChannel 3, leftButtonPin 17, rightButtonPin 27 —
which differs from the requested 0 for every such field EXCEPT
`leftXChannel`, whose default is 0, so there the requested value is
(coincidentally) preserved. -/
theorem zero_options_defaulted (opts : Options) :
    (opts.deadzone = some 0 →
      (mkControllerOptions opts).deadzone = 15/100 ∧
        (mkControllerOptions opts).deadzone ≠ 0) ∧
    (opts.threshold = some 0 →
      (mkControllerOptions opts).threshold = 3/10 ∧
        (mkControllerOptions opts).threshold ≠ 0) ∧
    (opts.pollInterval = some 0 →
      (mkControllerOptions opts).pollInterval = 50 ∧
        (mkControllerOptions opts).pollInterval ≠ 0) ∧
    (opts.leftYChannel = some 0 →
      (mkControllerOptions opts).leftYChannel = 1 ∧
        (mkControllerOptions opts).leftYChannel ≠ 0) ∧
    (opts.rightXChannel = some 0 →
      (mkControllerOptions opts).rightXChannel = 2 ∧
        (mkControllerOptions opts).rightXChannel ≠ 0) ∧
    (opts.rightYChannel = some 0 →
      (mkControllerOptions opts).rightYChannel = 3 ∧
        (mkControllerOptions opts).rightYChannel ≠ 0) ∧
    (opts.leftButtonPin = some 0 →
      (mkControllerOptions opts).leftButtonPin = 17 ∧
        (mkControllerOptions opts).leftButtonPin ≠ 0) ∧
    (opts.rightButtonPin = some 0 →
      (mkControllerOptions opts).rightButtonPin = 27 ∧
        (mkControllerOptions opts).rightButtonPin ≠ 0) ∧
    (opts.leftXChannel = some 0 →
      (mkControllerOptions opts).leftXChannel = 0) := by
  refine ⟨fun h => ⟨?_, ?_⟩, fun h => ⟨?_, ?_⟩, fun h => ⟨?_, ?_⟩,
    fun h => ⟨?_, ?_⟩, fun h => ⟨?_, ?_⟩, fun h => ⟨?_, ?_⟩,
    fun h => ⟨?_, ?_⟩, fun h => ⟨?_, ?_⟩, fun h => ?_⟩ <;>
    norm_num [mkControllerOptions, orDefault, h]

/-- C10 witness: requesting deadzone 0 yields the default 0.15. -/
theorem zero_options_defaulted_witness :
    (Options.deadzone { deadzone := some 0 } = some 0) ∧
    (mkControllerOptions { deadzone := some 0 }).deadzone = 15/100 := by
  exact ⟨rfl, ((zero_options_defaulted { deadzone := some 0 }).1 rfl).1⟩

/-- C2 counterexample: subscribers A (send throws) and B are registered;
the broadcast still delivers to B, but A is NOT removed from the registry
— it is still present afterwards and the next broadcast attempts to send
to it again, contradicting "the failing subscriber is removed from the
registry so it receives no subsequent broadcasts". -/
theorem broadcast_keeps_failing_client :
    (broadcastToClients [clientA, clientB] sampleMessage).sent =
      [(clientB.id, serializeMessage sampleMessage)] ∧
    (broadcastToClients [clientA, clientB] sampleMessage).registryAfter =
      [clientA, clientB] ∧
    clientA ∈ (broadcastToClients [clientA, clientB] sampleMessage).registryAfter ∧
    clientA.id ∈
      (broadcastToClients
        (broadcastToClients [clientA, clientB] sampleMessage).registryAfter
        sampleMessage).attempted := by
  refine ⟨?_, rfl, ?_, ?_⟩
  · simp [broadcastToClients, broadcastSends, clientA, clientB]
  · simp [broadcastToClients]
  · simp [broadcastToClients, broadcastSends, clientA, clientB]

/-- C2 amended: `broadcast` serializes the event once, attempts delivery
to every currently registered subscriber whose channel is open, catches a
per-subscriber send failure without aborting delivery to the remainder —
but it does NOT remove the failing subscriber: the registry is left
completely unchanged (removal happens only in the socket close/error
handlers elsewhere), so the failing subscriber is attempted again on
subsequent broadcasts. -/
theorem broadcastToClients_spec (wsClients : List WsClient) (message : WsMessage) :
    (broadcastToClients wsClients message).serializeCalls = 1 ∧
    (broadcastToClients wsClients message).registryAfter = wsClients ∧
    (∀ p ∈ (broadcastToClients wsClients message).sent,
      p.2 = serializeMessage message) ∧
    (∀ client ∈ wsClients, client.readyState = 1 → client.sendFails = false →
      (client.id, serializeMessage message) ∈ (broadcastToClients wsClients message).sent) ∧
    (∀ client ∈ wsClients, client.readyState = 1 →
      client.id ∈ (broadcastToClients wsClients message).attempted) := by
  refine ⟨rfl, rfl, ?_, ?_, ?_⟩
  · intro p hp
    simp only [broadcastToClients] at hp
    induction wsClients with
    | nil => simp [broadcastSends] at hp
    | cons client rest ih =>
      simp only [broadcastSends] at hp
      by_cases h1 : client.readyState = 1
      · by_cases h2 : client.sendFails
        · rw [if_pos h1, if_pos h2] at hp
          exact ih hp
        · rw [if_pos h1, if_neg h2] at hp
          rcases List.mem_cons.mp hp with h | h
          · rw [h]
          · exact ih h
      · rw [if_neg h1] at hp
        exact ih hp
  · intro client hmem h1 h2
    simp only [broadcastToClients]
    induction wsClients with
    | nil => simp at hmem
    | cons hd rest ih =>
      simp only [broadcastSends]
      rcases List.mem_cons.mp hmem with h | h
      · rw [← h, if_pos h1, if_neg (by simp [h2])]
        exact List.mem_cons_self _ _
      · by_cases hh1 : hd.readyState = 1
        · by_cases hh2 : hd.sendFails
          · rw [if_pos hh1, if_pos hh2]
            exact ih h
          · rw [if_pos hh1, if_neg hh2]
            exact List.mem_cons_of_mem _ (ih h)
        · rw [if_neg hh1]
          exact ih h
  · intro client hmem h1
    simp only [broadcastToClients]
    induction wsClients with
    | nil => simp at hmem
    | cons hd rest ih =>
      simp only [broadcastSends]
      rcases List.mem_cons.mp hmem with h | h
      · subst h
        rw [if_pos h1]
        by_cases h2 : client.sendFails
        · rw [if_pos h2]
          exact List.mem_cons_self _ _
        · rw [if_neg h2]
          exact List.mem_cons_self _ _
      · by_cases hh1 : hd.readyState = 1
        · by_cases hh2 : hd.sendFails
          · rw [if_pos hh1, if_pos hh2]
            exact List.mem_cons_of_mem _ (ih h)
          · rw [if_pos hh1, if_neg hh2]
            exact List.mem_cons_of_mem _ (ih h)
        · rw [if_neg hh1]
          exact ih h

/-- C2 witness: with A (failing) and B registered, B's id receives the
serialized sample message and A's send is attempted. -/
theorem broadcastToClients_spec_witness :
    clientB ∈ [clientA, clientB] ∧ clientB.readyState = 1 ∧
      clientB.sendFails = false ∧
    (clientB.id, serializeMessage sampleMessage) ∈
      (broadcastToClients [clientA, clientB] sampleMessage).sent ∧
    clientA.id ∈ (broadcastToClients [clientA, clientB] sampleMessage).attempted := by
  have h := broadcastToClients_spec [clientA, clientB] sampleMessage
  refine ⟨by simp, rfl, rfl, ?_, ?_⟩
  · exact h.2.2.2.1 clientB (by simp) rfl rfl
  · exact h.2.2.2.2 clientA (by simp) rfl

/-! ## Structure of one tick body -/

theorem pollBody_fst (opts : ControllerOptions) (s : CtrlState) (raw : RawReads) :
    (pollBody opts s raw).1 =
      { left := { x := applyDeadzone opts raw.leftX
                  y := applyDeadzone opts raw.leftY
                  button := s.left.button
                  zoomMode := s.left.zoomMode }
        right := { x := applyDeadzone opts raw.rightX
                   y := applyDeadzone opts raw.rightY
                   button := s.right.button }
        lastDirection := { left := normLeftDir opts raw
                           right := normRightDir opts raw } } := by
  simp only [pollBody, leftBlock, rightBlock, normLeftDir, normRightDir]
  by_cases h1 : getDirection opts (applyDeadzone opts raw.leftX)
      (applyDeadzone opts raw.leftY) ≠ s.lastDirection.left <;>
    by_cases h2 : getDirection opts (applyDeadzone opts raw.rightX)
        (applyDeadzone opts raw.rightY) ≠ s.lastDirection.right <;>
    simp only [not_not] at h1 h2 <;>
    simp [h1, h2]

theorem pollBody_snd (opts : ControllerOptions) (s : CtrlState) (raw : RawReads) :
    (pollBody opts s raw).2 =
      (if normLeftDir opts raw ≠ s.lastDirection.left then
        leftDirEvents s.left.zoomMode (normLeftDir opts raw) else []) ++
      (if normRightDir opts raw ≠ s.lastDirection.right then
        rightDirEvents (normRightDir opts raw) else []) := by
  simp only [pollBody, leftBlock, rightBlock, normLeftDir, normRightDir]
  by_cases h1 : getDirection opts (applyDeadzone opts raw.leftX)
      (applyDeadzone opts raw.leftY) ≠ s.lastDirection.left <;>
    by_cases h2 : getDirection opts (applyDeadzone opts raw.rightX)
        (applyDeadzone opts raw.rightY) ≠ s.lastDirection.right <;>
    simp [h1, h2]

theorem pollBody_fixed (opts : ControllerOptions) (s : CtrlState) (raw : RawReads) :
    pollBody opts ((pollBody opts s raw).1) raw = ((pollBody opts s raw).1, []) := by
  have hfst := pollBody_fst opts s raw
  rw [Prod.ext_iff]
  constructor
  · rw [pollBody_fst opts _ raw, hfst]
  · rw [pollBody_snd opts _ raw, hfst]
    simp

theorem runPollList_fixed (opts : ControllerOptions) (s : CtrlState) (raw : RawReads)
    (h : pollBody opts s raw = (s, [])) :
    ∀ m, runPollList opts s (List.replicate m raw) = (s, []) := by
  intro m
  induction m with
  | zero => rfl
  | succ k ih => simp [List.replicate_succ, runPollList, h, ih]

theorem navigate_not_mem_leftDirEvents (d : Direction) (zm : Bool)
    (ld : Option Direction) : Event.navigate d ∉ leftDirEvents zm ld := by
  cases ld with
  | none => simp [leftDirEvents]
  | some d2 => cases zm <;> cases d2 <;> simp [leftDirEvents]

theorem pan_not_mem_rightDirEvents (d : Direction) (rd : Option Direction) :
    Event.pan d ∉ rightDirEvents rd := by
  cases rd <;> simp [rightDirEvents]

theorem zoom_not_mem_rightDirEvents (z : ZoomDir) (rd : Option Direction) :
    Event.zoom z ∉ rightDirEvents rd := by
  cases rd <;> simp [rightDirEvents]

/-- C5: emission is edge-triggered.  If a stick's classified direction
equals the one recorded on the previous tick, that stick emits nothing;
holding identical readings for N+1 consecutive ticks emits exactly the
first tick's events; a transition to `none` records `none` but emits
nothing from that stick. -/
theorem poll_edge_triggered (opts : ControllerOptions) (s : CtrlState)
    (raw : RawReads) (n : Nat) :
    (normLeftDir opts raw = s.lastDirection.left →
      (∀ d, Event.pan d ∉ (pollBody opts s raw).2) ∧
      (∀ z, Event.zoom z ∉ (pollBody opts s raw).2)) ∧
    (normRightDir opts raw = s.lastDirection.right →
      ∀ d, Event.navigate d ∉ (pollBody opts s raw).2) ∧
    (runPollList opts s (List.replicate (n + 1) raw)).2 = (pollBody opts s raw).2 ∧
    (normLeftDir opts raw = none →
      (pollBody opts s raw).1.lastDirection.left = none ∧
      (∀ d, Event.pan d ∉ (pollBody opts s raw).2) ∧
      (∀ z, Event.zoom z ∉ (pollBody opts s raw).2)) ∧
    (normRightDir opts raw = none →
      (pollBody opts s raw).1.lastDirection.right = none ∧
      ∀ d, Event.navigate d ∉ (pollBody opts s raw).2) := by
  refine ⟨fun h => ⟨fun d => ?_, fun z => ?_⟩, fun h d => ?_, ?_,
    fun h => ⟨?_, fun d => ?_, fun z => ?_⟩, fun h => ⟨?_, fun d => ?_⟩⟩
  · rw [pollBody_snd]
    simp only [h, ne_eq, not_true_eq_false, if_false, ite_not, List.nil_append]
    split_ifs with hr
    · simp
    · exact pan_not_mem_rightDirEvents d _
  · rw [pollBody_snd]
    simp only [h, ne_eq, not_true_eq_false, if_false, ite_not, List.nil_append]
    split_ifs with hr
    · simp
    · exact zoom_not_mem_rightDirEvents z _
  · rw [pollBody_snd]
    simp only [h, ne_eq, not_true_eq_false, if_false, List.append_nil, ite_not]
    split_ifs with hl
    · simp
    · exact navigate_not_mem_leftDirEvents d _ _
  · rw [List.replicate_succ]
    simp only [runPollList]
    rw [runPollList_fixed opts _ raw (pollBody_fixed opts s raw) n]
    simp
  · rw [pollBody_fst]
    exact h
  · rw [pollBody_snd, h]
    simp only [leftDirEvents, ite_self, List.nil_append]
    split_ifs with hr
    · exact pan_not_mem_rightDirEvents d _
    · simp
  · rw [pollBody_snd, h]
    simp only [leftDirEvents, ite_self, List.nil_append]
    split_ifs with hr
    · exact zoom_not_mem_rightDirEvents z _
    · simp
  · rw [pollBody_fst]
    exact h
  · rw [pollBody_snd, h]
    simp only [rightDirEvents, ite_self, List.append_nil]
    split_ifs with hl
    · exact navigate_not_mem_leftDirEvents d _ _
    · simp

/-! ## Evaluations at the default configuration -/

theorem applyDeadzone_default_center :
    applyDeadzone (mkControllerOptions {}) (1/2) = 0 := by
  norm_num [applyDeadzone, jabs, mkControllerOptions, orDefault]

theorem applyDeadzone_default_one :
    applyDeadzone (mkControllerOptions {}) 1 = 1 := by
  norm_num [applyDeadzone, jabs, mkControllerOptions, orDefault]

theorem getDirection_default_center :
    getDirection (mkControllerOptions {}) 0 0 = none := by
  norm_num [getDirection, jabs, mkControllerOptions, orDefault]

theorem getDirection_default_right :
    getDirection (mkControllerOptions {}) 1 0 = some .right := by
  norm_num [getDirection, jabs, mkControllerOptions, orDefault]

theorem normLeftDir_default_mock :
    normLeftDir (mkControllerOptions {}) mockRaw = none := by
  show getDirection _ (applyDeadzone _ (1/2)) (applyDeadzone _ (1/2)) = none
  rw [applyDeadzone_default_center]
  exact getDirection_default_center

theorem normRightDir_default_mock :
    normRightDir (mkControllerOptions {}) mockRaw = none := by
  show getDirection _ (applyDeadzone _ (1/2)) (applyDeadzone _ (1/2)) = none
  rw [applyDeadzone_default_center]
  exact getDirection_default_center

theorem normLeftDir_default_pan :
    normLeftDir (mkControllerOptions {}) panRaw = some .right := by
  show getDirection _ (applyDeadzone _ 1) (applyDeadzone _ (1/2)) = some .right
  rw [applyDeadzone_default_one, applyDeadzone_default_center]
  exact getDirection_default_right

theorem normRightDir_default_pan :
    normRightDir (mkControllerOptions {}) panRaw = none := by
  show getDirection _ (applyDeadzone _ (1/2)) (applyDeadzone _ (1/2)) = none
  rw [applyDeadzone_default_center]
  exact getDirection_default_center

/-- C5 witness: holding the left stick hard right for 3 consecutive ticks
from the initial state emits exactly the single `pan right` of the first
tick, and a mock tick whose directions match the recorded ones emits no
pan. -/
theorem poll_edge_triggered_witness :
    normLeftDir (mkControllerOptions {}) mockRaw = initCtrlState.lastDirection.left ∧
    Event.pan Direction.right ∉
      (pollBody (mkControllerOptions {}) initCtrlState mockRaw).2 ∧
    (runPollList (mkControllerOptions {}) initCtrlState
        (List.replicate 3 panRaw)).2 =
      (pollBody (mkControllerOptions {}) initCtrlState panRaw).2 := by
  have hmock : normLeftDir (mkControllerOptions {}) mockRaw
      = initCtrlState.lastDirection.left := by
    rw [normLeftDir_default_mock]
    rfl
  refine ⟨hmock, ?_, ?_⟩
  · exact ((poll_edge_triggered (mkControllerOptions {}) initCtrlState mockRaw 0).1
      hmock).1 Direction.right
  · exact (poll_edge_triggered (mkControllerOptions {}) initCtrlState panRaw 2).2.2.1

/-- C6: routing of direction-change events.  On a left-stick change to a
non-null direction: with zoom mode on, up emits zoom-in, down emits
zoom-out, and left/right emit nothing from either left-stick event kind;
with zoom mode off, the direction is emitted as a pan.  A right-stick
change to a non-null direction always emits navigate, regardless of zoom
mode. -/
theorem poll_routes_events (opts : ControllerOptions) (s : CtrlState)
    (raw : RawReads) :
    (∀ d, normLeftDir opts raw = some d →
      normLeftDir opts raw ≠ s.lastDirection.left →
      (s.left.zoomMode = true →
        (d = Direction.up →
          Event.zoom ZoomDir.zoomIn ∈ (pollBody opts s raw).2) ∧
        (d = Direction.down →
          Event.zoom ZoomDir.zoomOut ∈ (pollBody opts s raw).2) ∧
        ((d = Direction.left ∨ d = Direction.right) →
          (∀ d2, Event.pan d2 ∉ (pollBody opts s raw).2) ∧
          (∀ z, Event.zoom z ∉ (pollBody opts s raw).2))) ∧
      (s.left.zoomMode = false →
        Event.pan d ∈ (pollBody opts s raw).2)) ∧
    (∀ d, normRightDir opts raw = some d →
      normRightDir opts raw ≠ s.lastDirection.right →
      Event.navigate d ∈ (pollBody opts s raw).2) := by
  constructor
  · intro d hd hne
    constructor
    · intro hzm
      refine ⟨fun hup => ?_, fun hdown => ?_, fun hlr => ?_⟩
      · rw [pollBody_snd, if_pos hne, hd, hzm, hup]
        simp [leftDirEvents]
      · rw [pollBody_snd, if_pos hne, hd, hzm, hdown]
        simp [leftDirEvents]
      · have hle : leftDirEvents true (some d) = [] := by
          rcases hlr with h | h <;> rw [h] <;> rfl
        constructor
        · intro d2 hc
          rw [pollBody_snd, if_pos hne, hd, hzm, hle, List.nil_append] at hc
          split_ifs at hc
          · exact pan_not_mem_rightDirEvents d2 _ hc
          · simp at hc
        · intro z hc
          rw [pollBody_snd, if_pos hne, hd, hzm, hle, List.nil_append] at hc
          split_ifs at hc
          · exact zoom_not_mem_rightDirEvents z _ hc
          · simp at hc
    · intro hzm
      rw [pollBody_snd, if_pos hne, hd, hzm]
      simp [leftDirEvents]
  · intro d hd hne
    rw [pollBody_snd, if_pos hne, hd]
    simp [rightDirEvents]

/-- C6 witness: from the initial state (zoom mode off), the left stick
moving hard right emits `pan right`. -/
theorem poll_routes_events_witness :
    normLeftDir (mkControllerOptions {}) panRaw = some Direction.right ∧
    normLeftDir (mkControllerOptions {}) panRaw ≠ initCtrlState.lastDirection.left ∧
    initCtrlState.left.zoomMode = false ∧
    Event.pan Direction.right ∈
      (pollBody (mkControllerOptions {}) initCtrlState panRaw).2 := by
  have h1 : normLeftDir (mkControllerOptions {}) panRaw = some Direction.right :=
    normLeftDir_default_pan
  have h2 : normLeftDir (mkControllerOptions {}) panRaw
      ≠ initCtrlState.lastDirection.left := by
    rw [h1]
    simp [initCtrlState]
  exact ⟨h1, h2, rfl,
    ((poll_routes_events (mkControllerOptions {}) initCtrlState panRaw).1
      Direction.right h1 h2).2 rfl⟩

/-! ## Mock mode and the stop race -/

theorem pollBody_default_mock :
    pollBody (mkControllerOptions {}) initCtrlState mockRaw = (initCtrlState, []) := by
  rw [Prod.ext_iff]
  constructor
  · rw [pollBody_fst]
    rw [normLeftDir_default_mock, normRightDir_default_mock]
    rw [show mockRaw.leftX = (1/2 : ℚ) from rfl, show mockRaw.leftY = (1/2 : ℚ) from rfl,
      show mockRaw.rightX = (1/2 : ℚ) from rfl, show mockRaw.rightY = (1/2 : ℚ) from rfl,
      applyDeadzone_default_center]
    rfl
  · rw [pollBody_snd, normLeftDir_default_mock, normRightDir_default_mock]
    simp [initCtrlState]

theorem pollBody_default_pan_events :
    (pollBody (mkControllerOptions {}) initCtrlState panRaw).2
      = [Event.pan Direction.right] := by
  rw [pollBody_snd, normLeftDir_default_pan, normRightDir_default_pan]
  simp [initCtrlState, leftDirEvents]

theorem pollTick_mock_inv (c : ThumbstickController)
    (hopts : c.options = mkControllerOptions {})
    (hch : c.channels = none)
    (hst : c.state = initCtrlState)
    (hev : c.events = []) :
    (pollTick c).options = mkControllerOptions {} ∧
    (pollTick c).channels = none ∧
    (pollTick c).state = initCtrlState ∧
    (pollTick c).events = [] := by
  unfold pollTick
  split
  · exact ⟨hopts, hch, hst, hev⟩
  · have hreads : controllerReads c = Except.ok mockRaw := by
      unfold controllerReads
      rw [hch]
      rfl
    rw [hreads]
    simp only [pollResume]
    refine ⟨hopts, hch, ?_, ?_⟩
    · show (pollBody c.options c.state mockRaw).1 = initCtrlState
      rw [hopts, hst, pollBody_default_mock]
    · show c.events ++ (pollBody c.options c.state mockRaw).2 = []
      rw [hopts, hst, pollBody_default_mock, hev]
      rfl

theorem runTicks_mock_inv (n : Nat) :
    ∀ c : ThumbstickController,
      c.options = mkControllerOptions {} → c.channels = none →
      c.state = initCtrlState → c.events = [] →
      (runTicks n c).options = mkControllerOptions {} ∧
      (runTicks n c).channels = none ∧
      (runTicks n c).state = initCtrlState ∧
      (runTicks n c).events = [] := by
  induction n with
  | zero => exact fun c h1 h2 h3 h4 => ⟨h1, h2, h3, h4⟩
  | succ k ih =>
    intro c h1 h2 h3 h4
    have h := pollTick_mock_inv c h1 h2 h3 h4
    exact ih (pollTick c) h.1 h.2.1 h.2.2.1 h.2.2.2

/-- C9: in mock mode (no hardware channels) every analog read of a tick
resolves to the raw center value 0.5, and any number of ticks starting
from the freshly started controller emits no event at all. -/
theorem mock_mode_silent (n : Nat) :
    controllerReads (ThumbstickController.construct {}) = Except.ok mockRaw ∧
    (runTicks n (start (ThumbstickController.construct {}))).events = [] := by
  constructor
  · rfl
  · have hstart : start (ThumbstickController.construct {}) =
        pollTick { ThumbstickController.construct {} with isRunning := true } := by
      rfl
    rw [hstart]
    have hbase := pollTick_mock_inv
      { ThumbstickController.construct {} with isRunning := true } rfl rfl rfl rfl
    exact (runTicks_mock_inv n _ hbase.1 hbase.2.1 hbase.2.2.1 hbase.2.2.2).2.2.2

/-- C1: the claimed cancellation guarantee fails.  A tick that passed the
`isRunning` guard and is awaiting its channel reads when `stop()` runs
still resumes afterwards: even though `stop()` returned with the run flag
cleared, the timer cancelled, and no event emitted, the in-flight tick
then emits `pan right` and re-arms the poll timer — exactly what the
claim rules out. -/
theorem stop_in_flight_tick_emits :
    pollGuard inFlightController = true ∧
    (stop inFlightController).isRunning = false ∧
    (stop inFlightController).pollTimerSet = false ∧
    (stop inFlightController).events = [] ∧
    (pollResume (stop inFlightController) (controllerReads inFlightController)).events
      = [Event.pan Direction.right] ∧
    (pollResume (stop inFlightController) (controllerReads inFlightController)).pollTimerSet
      = true := by
  refine ⟨rfl, rfl, rfl, rfl, ?_, rfl⟩
  have hreads : controllerReads inFlightController = Except.ok panRaw := rfl
  rw [hreads]
  simp only [pollResume]
  show (stop inFlightController).events ++
      (pollBody (stop inFlightController).options
        (stop inFlightController).state panRaw).2 = [Event.pan Direction.right]
  have hopts : (stop inFlightController).options = mkControllerOptions {} := rfl
  have hst : (stop inFlightController).state = initCtrlState := rfl
  have hev : (stop inFlightController).events = [] := rfl
  rw [hopts, hst, hev, pollBody_default_pan_events]
  rfl

end PiWorldRadio
